import Mathlib

set_option maxRecDepth 16000

/-!
Shallow embedding of `convert_manual_to_odp.py`
(class `FixedManualToODPConverter`): the markdown-to-ODP converter's
escaping function, block parser, slide/XML emitter, archive writer and
top-level conversion sequence, together with theorems settling the
specification's claims about them.

Python strings are modelled as Lean `String`s; Python `str` helpers
(`strip`, slicing, `startswith`, `endswith`, `split`, `join`,
membership) are given explicit structural definitions over `String.data`
so that all functions evaluate inside the kernel.  All inputs relevant
to the claims are ASCII plus the rocket emoji; on that range the ASCII
character classes used below agree with Python's Unicode-aware ones.
-/

namespace Odp

/-- Characters stripped by Python's `str.strip()` (ASCII whitespace range). -/
def isPySpace (c : Char) : Bool :=
  c = ' ' || c = '\t' || c = '\n' || c = '\r' || c = '\x0b' || c = '\x0c'

/-- Python `s.strip()`. -/
def pyStrip (s : String) : String :=
  ⟨((s.data.dropWhile isPySpace).reverse.dropWhile isPySpace).reverse⟩

/-- Python `s[n:]`. -/
def pyDrop (n : Nat) (s : String) : String :=
  ⟨s.data.drop n⟩

/-- Python `s[2:-2]` (used for the bold-marker slice `line[2:-2]`). -/
def pySlice2m2 (s : String) : String :=
  ⟨(s.data.drop 2).take (s.data.length - 4)⟩

/-- Python `s.startswith(p)`. -/
def pyStartsWith (s p : String) : Bool :=
  p.data.isPrefixOf s.data

/-- Python `s.endswith(p)`. -/
def pyEndsWith (s p : String) : Bool :=
  p.data.isSuffixOf s.data

/-- Python `c in s` for a single character `c`. -/
def pyHasChar (s : String) (c : Char) : Bool :=
  s.data.contains c

/-- Python `s.split(sep)` for a one-character separator: no collapsing,
`"".split(sep) == [""]`. -/
def splitOnChar (sep : Char) : List Char → List (List Char)
  | [] => [[]]
  | c :: rest =>
    let r := splitOnChar sep rest
    if c = sep then [] :: r
    else
      match r with
      | h :: t => (c :: h) :: t
      | [] => [[c]]

/-- Python `content.split('\n')` as a list of strings. -/
def pySplitLines (s : String) : List String :=
  (splitOnChar '\n' s.data).map (fun l => ⟨l⟩)

/-- Python `sep.join(xs)`. -/
def pyJoin (sep : String) : List String → String
  | [] => ""
  | [x] => x
  | x :: y :: xs => x ++ sep ++ pyJoin sep (y :: xs)

/-- Python `s.replace(pat, rep)` (all occurrences, left to right, the
replacement text is not rescanned), written with a fuel argument so that
the recursion is structural and the kernel can evaluate it; fuel equal to
the length of the subject string always suffices, since every step
consumes at least one character of the subject. -/
def replaceAux (pat rep : List Char) : Nat → List Char → List Char
  | _, [] => []
  | 0, l => l
  | fuel + 1, c :: rest =>
    if pat.isPrefixOf (c :: rest) then
      rep ++ replaceAux pat rep fuel ((c :: rest).drop pat.length)
    else
      c :: replaceAux pat rep fuel rest

/-- Python `s.replace(pat, rep)` on strings (`pat` is nonempty at every
call site below, as in the source). -/
def pyReplace (s pat rep : String) : String :=
  ⟨replaceAux pat.data rep.data s.data.length s.data⟩

/-- CPython's `html.escape(text, quote=False)`: sequentially replaces
`&`, `<`, `>` by their named entities (in that order). -/
def htmlEscapeNoQuote (s : String) : String :=
  pyReplace (pyReplace (pyReplace s "&" "&amp;") "<" "&lt;") ">" "&gt;"

/-- Embeds `FixedManualToODPConverter.escape_xml`: an empty (falsy) string maps
to `""`; otherwise `html.escape(text, quote=False)` followed by the five
manual replacements, in source order. -/
def escape_xml (text : String) : String :=
  if text = "" then ""
  else
    let t := htmlEscapeNoQuote text
    let t := pyReplace t "&" "&amp;"
    let t := pyReplace t "<" "&lt;"
    let t := pyReplace t ">" "&gt;"
    let t := pyReplace t "\"" "&quot;"
    pyReplace t "'" "&apos;"

/-- Modelled from the spec: the repository contains no XML parser, so
"parsing the result as XML" (the round-trip oracle of the escaping
contract) is modelled as standard XML text-content entity resolution:
the five named entities `&amp; &lt; &gt; &quot; &apos;` denote
`& < > " '`, every other character denotes itself.  Fuel makes the
recursion structural; fuel equal to the input length suffices. -/
def xmlUnescapeAux : Nat → List Char → List Char
  | _, [] => []
  | 0, l => l
  | fuel + 1, c :: rest =>
    if c = '&' then
      if rest.take 4 = ['a', 'm', 'p', ';'] then
        '&' :: xmlUnescapeAux fuel (rest.drop 4)
      else if rest.take 3 = ['l', 't', ';'] then
        '<' :: xmlUnescapeAux fuel (rest.drop 3)
      else if rest.take 3 = ['g', 't', ';'] then
        '>' :: xmlUnescapeAux fuel (rest.drop 3)
      else if rest.take 5 = ['q', 'u', 'o', 't', ';'] then
        '"' :: xmlUnescapeAux fuel (rest.drop 5)
      else if rest.take 5 = ['a', 'p', 'o', 's', ';'] then
        '\'' :: xmlUnescapeAux fuel (rest.drop 5)
      else
        c :: xmlUnescapeAux fuel rest
    else
      c :: xmlUnescapeAux fuel rest

/-- The visible text an XML parser yields for escaped text content. -/
def xmlUnescape (s : String) : String :=
  ⟨xmlUnescapeAux s.data.length s.data⟩

/-- The `'type'` field of a content dictionary built by `parse_content`. -/
inductive BlockType
  | subtitle
  | bullet
  | bold
  | text
deriving DecidableEq

/-- One content dictionary `{'type': ..., 'text': ...}`. -/
structure Block where
  type : BlockType
  text : String
deriving DecidableEq

/-- One slide dictionary `{'title': ..., 'content': [...]}`. -/
structure Slide where
  title : String
  content : List Block
deriving DecidableEq

/-- Python `\w` (word character): on the ASCII-plus-emoji inputs of the
claims this agrees with Python's Unicode-aware class (ASCII letters,
digits, underscore; the rocket emoji is not a word character in either). -/
def isWordChar (c : Char) : Bool :=
  c.isAlphanum || c = '_'

/-- Embeds `re.sub(r'[^\w\s\-]', '', title)`: drop every character outside
`{word characters, whitespace, hyphen}`. -/
def cleanTitle (s : String) : String :=
  ⟨s.data.filter (fun c => isWordChar c || isPySpace c || c = '-')⟩

/-- The slide-marker test of `parse_content`:
`line.startswith('## ') and not line.startswith('### ')`. -/
def isSlideMarker (line : String) : Bool :=
  pyStartsWith line "## " && !(pyStartsWith line "### ")

/-- Predicate of the `### ` (subtitle) branch. -/
def pSubtitle (line : String) : Bool :=
  pyStartsWith line "### "

/-- Predicate of the `- ` (bullet) branch. -/
def pBullet (line : String) : Bool :=
  pyStartsWith line "- "

/-- Predicate of the `**...**` (bold) branch. -/
def pBold (line : String) : Bool :=
  pyStartsWith line "**" && pyEndsWith line "**"

/-- Predicate of the pipe-table branch:
`line.startswith('|') and '|' in line[1:]`. -/
def pTable (line : String) : Bool :=
  pyStartsWith line "|" && pyHasChar (pyDrop 1 line) '|'

/-- Predicate of the final plain-text branch:
`line and not line.startswith('---')`. -/
def pPlain (line : String) : Bool :=
  !(line = "") && !(pyStartsWith line "---")

/-- Builder of the subtitle branch: `{'type': 'subtitle', 'text': line[4:].strip()}`. -/
def mkSubtitle (line : String) : Option Block :=
  some ⟨BlockType.subtitle, pyStrip (pyDrop 4 line)⟩

/-- Builder of the bullet branch: `{'type': 'bullet', 'text': line[2:].strip()}`. -/
def mkBullet (line : String) : Option Block :=
  some ⟨BlockType.bullet, pyStrip (pyDrop 2 line)⟩

/-- Builder of the bold branch: `{'type': 'bold', 'text': line[2:-2].strip()}`. -/
def mkBold (line : String) : Option Block :=
  some ⟨BlockType.bold, pyStrip (pySlice2m2 line)⟩

/-- Builder of the table branch: inside the branch the code re-checks
`'|' in line and not line.startswith('|---')`, slices off the outer
cells of `line.split('|')`, strips each cell, requires a nonempty cell
list with nonempty first cell, and joins the cells with `' | '`;
otherwise no block is produced. -/
def mkTable (line : String) : Option Block :=
  if pyHasChar line '|' && !(pyStartsWith line "|---") then
    match (((splitOnChar '|' line.data).map (fun l => ⟨l⟩)).drop 1).dropLast.map pyStrip with
    | [] => none
    | c :: cs =>
      if c = "" then none
      else some ⟨BlockType.text, pyJoin " | " (c :: cs)⟩
  else none

/-- Builder of the plain-text branch: `{'type': 'text', 'text': line}`. -/
def mkPlain (line : String) : Option Block :=
  some ⟨BlockType.text, line⟩

/-- The `if/elif` classification chain applied to a (stripped, nonempty)
content line inside a slide, in source order. -/
def classifyContentLine (line : String) : Option Block :=
  if pSubtitle line then mkSubtitle line
  else if pBullet line then mkBullet line
  else if pBold line then mkBold line
  else if pTable line then mkTable line
  else if pPlain line then mkPlain line
  else none

/-- The classification chain presented as an explicit ordered list of
(predicate, builder) rules. -/
def priorityRules : List ((String → Bool) × (String → Option Block)) :=
  [(pSubtitle, mkSubtitle), (pBullet, mkBullet), (pBold, mkBold),
   (pTable, mkTable), (pPlain, mkPlain)]

/-- First-match evaluation of an ordered rule list. -/
def applyRules : List ((String → Bool) × (String → Option Block)) → String → Option Block
  | [], _ => none
  | r :: rest, line => if r.1 line then r.2 line else applyRules rest line

/-- The loop state of `parse_content`: the accumulated `self.slides` and
the current slide (its title together with `current_content`), if any. -/
structure ParseState where
  slides : List Slide
  cur : Option (String × List Block)
deriving DecidableEq

/-- Initial parser state: `self.slides = []`, `current_slide = None`. -/
def initState : ParseState :=
  ⟨[], none⟩

/-- One iteration of the `for line in lines` loop of `parse_content`:
strip the line; on a slide marker finalize the current slide (if any)
and open a new one whose title is the sanitized remainder; otherwise, if
a slide is open and the line is nonempty, classify it and append the
resulting block (if any) to the current content. -/
def parseStep (st : ParseState) (rawLine : String) : ParseState :=
  let line := pyStrip rawLine
  if isSlideMarker line then
    let slides :=
      match st.cur with
      | some tc => st.slides ++ [⟨tc.1, tc.2⟩]
      | none => st.slides
    ⟨slides, some (cleanTitle (pyStrip (pyDrop 3 line)), [])⟩
  else
    match st.cur with
    | some tc =>
      if line = "" then st
      else
        match classifyContentLine line with
        | some b => ⟨st.slides, some (tc.1, tc.2 ++ [b])⟩
        | none => st
    | none => st

/-- Embeds `FixedManualToODPConverter.parse_content`: split on newlines, run the
loop, then finalize the last open slide. -/
def parse_content (content : String) : List Slide :=
  let st := (pySplitLines content).foldl parseStep initState
  match st.cur with
  | some tc => st.slides ++ [⟨tc.1, tc.2⟩]
  | none => st.slides

/-- The `content_y:.1f` formatting: `content_y` is a float starting at 4.0
and growing by 0.8, 0.5 or 0.4 per emitted block; it is modelled in
tenths of a centimetre because over the at most 8 increments of a slide
the accumulated binary floating-point error stays far below the 0.05
rounding threshold of the `:.1f` format, so the printed value always
equals the exact decimal tenth. -/
def fmtTenths (t : Nat) : String :=
  toString (t / 10) ++ ("." ++ toString (t % 10))

/-- Fixed prefix shared by every content-frame opening line of style
`gr2` (subtitle frames). -/
def framePre2 : String :=
  "        <draw:frame draw:style-name=\"gr2\""

/-- Fixed prefix shared by every content-frame opening line of style
`gr3` (bullet and plain-text frames). -/
def framePre3 : String :=
  "        <draw:frame draw:style-name=\"gr3\""

/-- Literal part of the subtitle frame opening line, up to the `svg:y`
value. -/
def subtitleOpenA : String :=
  "        <draw:frame draw:style-name=\"gr2\" draw:text-style-name=\"P2\" draw:layer=\"layout\" svg:width=\"25.199cm\" svg:height=\"0.6cm\" svg:x=\"1.4cm\" svg:y=\""

/-- Literal part of the bullet frame opening line, up to the `svg:y`
value. -/
def bulletOpenA : String :=
  "        <draw:frame draw:style-name=\"gr3\" draw:text-style-name=\"P3\" draw:layer=\"layout\" svg:width=\"25.199cm\" svg:height=\"0.5cm\" svg:x=\"2.0cm\" svg:y=\""

/-- Literal part of the plain-text frame opening line, up to the `svg:y`
value. -/
def textOpenA : String :=
  "        <draw:frame draw:style-name=\"gr3\" draw:text-style-name=\"P3\" draw:layer=\"layout\" svg:width=\"25.199cm\" svg:height=\"0.4cm\" svg:x=\"1.4cm\" svg:y=\""

/-- Literal opening of a `P1` (title) paragraph line. -/
def paraP1A : String :=
  "            <text:p text:style-name=\"P1\">"

/-- Literal opening of a `P2` (subtitle) paragraph line. -/
def paraP2A : String :=
  "            <text:p text:style-name=\"P2\">"

/-- Literal opening of a `P3` (bullet / plain-text) paragraph line. -/
def paraP3A : String :=
  "            <text:p text:style-name=\"P3\">"

/-- The five lines a subtitle block appends. -/
def subtitleFrameLines (escapedText yStr : String) : List String :=
  [subtitleOpenA ++ (yStr ++ "cm\">"),
   "          <draw:text-box>",
   paraP2A ++ (escapedText ++ "</text:p>"),
   "          </draw:text-box>",
   "        </draw:frame>"]

/-- The five lines a bullet block appends (texts get the literal bullet
glyph prefix). -/
def bulletFrameLines (escapedText yStr : String) : List String :=
  [bulletOpenA ++ (yStr ++ "cm\">"),
   "          <draw:text-box>",
   paraP3A ++ ("• " ++ (escapedText ++ "</text:p>")),
   "          </draw:text-box>",
   "        </draw:frame>"]

/-- The five lines a plain-text block appends. -/
def textFrameLines (escapedText yStr : String) : List String :=
  [textOpenA ++ (yStr ++ "cm\">"),
   "          <draw:text-box>",
   paraP3A ++ (escapedText ++ "</text:p>"),
   "          </draw:text-box>",
   "        </draw:frame>"]

/-- The five fixed-position title-shape lines of a slide. -/
def titleFrameLines (escapedTitle : String) : List String :=
  ["        <draw:frame draw:style-name=\"gr1\" draw:text-style-name=\"P1\" draw:layer=\"layout\" svg:width=\"25.199cm\" svg:height=\"3.506cm\" svg:x=\"1.4cm\" svg:y=\"0.3cm\">",
   "          <draw:text-box>",
   paraP1A ++ (escapedTitle ++ "</text:p>"),
   "          </draw:text-box>",
   "        </draw:frame>"]

/-- Literal part of the `draw:page` opening line. -/
def pageOpenA : String :=
  "      <draw:page draw:name=\"Slide"

/-- The `draw:page` opening line of slide number `n` (0-based; the name
uses `n + 1`). -/
def pageOpenLine (n : Nat) : String :=
  pageOpenA ++ (toString (n + 1) ++ "\" draw:style-name=\"dp1\" draw:master-page-name=\"Standard\">")

/-- The content loop of `create_slide_xml_lines`: stop once
`content_count >= 8`; skip blocks with empty text (without counting
them); emit a subtitle / bullet / plain-text frame, advancing
`content_y` by 0.8 / 0.5 / 0.4 and the count by one; a `bold` block
matches none of the three `if/elif` type tests, so nothing is emitted
for it and neither the y position nor the count changes.  `y` is in
tenths of a centimetre. -/
def slideContentLoop : List Block → Nat → Nat → List String
  | [], _, _ => []
  | b :: rest, y, count =>
    if 8 ≤ count then []
    else if b.text = "" then slideContentLoop rest y count
    else
      match b.type with
      | BlockType.subtitle =>
        subtitleFrameLines (escape_xml b.text) (fmtTenths (y + 8))
          ++ slideContentLoop rest (y + 8) (count + 1)
      | BlockType.bullet =>
        bulletFrameLines (escape_xml b.text) (fmtTenths (y + 5))
          ++ slideContentLoop rest (y + 5) (count + 1)
      | BlockType.text =>
        textFrameLines (escape_xml b.text) (fmtTenths (y + 4))
          ++ slideContentLoop rest (y + 4) (count + 1)
      | BlockType.bold => slideContentLoop rest y count

/-- Embeds `FixedManualToODPConverter.create_slide_xml_lines`: page opening,
title shape, capped content loop starting at `content_y = 4.0`
(40 tenths) and `content_count = 0`, page closing. -/
def create_slide_xml_lines (slide : Slide) (slideNumber : Nat) : List String :=
  pageOpenLine slideNumber
    :: (titleFrameLines (escape_xml slide.title)
      ++ (slideContentLoop slide.content 40 0 ++ ["      </draw:page>"]))

/-- A block the content loop actually emits: nonempty text and one of
the three handled types (everything except `bold`). -/
def isBoldType : BlockType → Bool
  | BlockType.bold => true
  | _ => false

/-- Qualifying blocks: those the emitter's loop renders and counts. -/
def qualifying (b : Block) : Bool :=
  !(b.text = "") && !(isBoldType b.type)

/-- Reference rendering of an already-filtered, already-capped block
list: each block emits its frame and advances `y` by its increment
(a `bold` block, which `qualifying` excludes, emits nothing). -/
def renderLoop : List Block → Nat → List String
  | [], _ => []
  | b :: rest, y =>
    match b.type with
    | BlockType.subtitle =>
      subtitleFrameLines (escape_xml b.text) (fmtTenths (y + 8)) ++ renderLoop rest (y + 8)
    | BlockType.bullet =>
      bulletFrameLines (escape_xml b.text) (fmtTenths (y + 5)) ++ renderLoop rest (y + 5)
    | BlockType.text =>
      textFrameLines (escape_xml b.text) (fmtTenths (y + 4)) ++ renderLoop rest (y + 4)
    | BlockType.bold => renderLoop rest y

/-- Does a line open a content frame (style `gr2` or `gr3`)? -/
def isContentFrameOpen (l : String) : Bool :=
  framePre2.data.isPrefixOf l.data || framePre3.data.isPrefixOf l.data

/-- Does a line open a `draw:page` element? -/
def isPageOpen (l : String) : Bool :=
  "      <draw:page".data.isPrefixOf l.data

/-- The fixed header lines of `content.xml` (the literal list in
`create_content_xml` before slides are appended). -/
def contentHeaderLines : List String :=
  ["<?xml version=\"1.0\" encoding=\"UTF-8\"?>",
   "<office:document-content xmlns:office=\"urn:oasis:names:tc:opendocument:xmlns:office:1.0\"",
   "                        xmlns:style=\"urn:oasis:names:tc:opendocument:xmlns:style:1.0\"",
   "                        xmlns:text=\"urn:oasis:names:tc:opendocument:xmlns:text:1.0\"",
   "                        xmlns:table=\"urn:oasis:names:tc:opendocument:xmlns:table:1.0\"",
   "                        xmlns:draw=\"urn:oasis:names:tc:opendocument:xmlns:drawing:1.0\"",
   "                        xmlns:fo=\"urn:oasis:names:tc:opendocument:xmlns:xsl-fo-compatible:1.0\"",
   "                        xmlns:xlink=\"http://www.w3.org/1999/xlink\"",
   "                        xmlns:dc=\"http://purl.org/dc/elements/1.1/\"",
   "                        xmlns:meta=\"urn:oasis:names:tc:opendocument:xmlns:meta:1.0\"",
   "                        xmlns:number=\"urn:oasis:names:tc:opendocument:xmlns:datastyle:1.0\"",
   "                        xmlns:svg=\"urn:oasis:names:tc:opendocument:xmlns:svg-compatible:1.0\"",
   "                        xmlns:chart=\"urn:oasis:names:tc:opendocument:xmlns:chart:1.0\"",
   "                        xmlns:dr3d=\"urn:oasis:names:tc:opendocument:xmlns:dr3d:1.0\"",
   "                        xmlns:math=\"http://www.w3.org/1998/Math/MathML\"",
   "                        xmlns:form=\"urn:oasis:names:tc:opendocument:xmlns:form:1.0\"",
   "                        xmlns:script=\"urn:oasis:names:tc:opendocument:xmlns:script:1.0\"",
   "                        xmlns:ooo=\"http://openoffice.org/2004/office\"",
   "                        xmlns:ooow=\"http://openoffice.org/2004/writer\"",
   "                        xmlns:oooc=\"http://openoffice.org/2004/calc\"",
   "                        xmlns:dom=\"http://www.w3.org/2001/xml-events\"",
   "                        xmlns:xforms=\"http://www.w3.org/2002/xforms\"",
   "                        xmlns:xsd=\"http://www.w3.org/2001/XMLSchema\"",
   "                        xmlns:xsi=\"http://www.w3.org/2001/XMLSchema-instance\"",
   "                        xmlns:rpt=\"http://openoffice.org/2005/report\"",
   "                        xmlns:of=\"urn:oasis:names:tc:opendocument:xmlns:of:1.2\"",
   "                        xmlns:xhtml=\"http://www.w3.org/1999/xhtml\"",
   "                        xmlns:grddl=\"http://www.w3.org/2003/g/data-view#\"",
   "                        xmlns:tableooo=\"http://openoffice.org/2009/table\"",
   "                        xmlns:field=\"urn:oasis:names:tc:opendocument:xmlns:field:1.0\"",
   "                        xmlns:formx=\"urn:oasis:names:tc:opendocument:xmlns:form:1.0\"",
   "                        xmlns:css3t=\"http://www.w3.org/TR/css3-text/\"",
   "                        office:version=\"1.2\">",
   "  <office:scripts/>",
   "  <office:font-face-decls/>",
   "  <office:automatic-styles>",
   "    <style:style style:name=\"dp1\" style:family=\"drawing-page\">",
   "      <style:drawing-page-properties draw:background-size=\"full\" draw:fill=\"none\"/>",
   "    </style:style>",
   "    <style:style style:name=\"gr1\" style:family=\"graphic\" style:parent-style-name=\"standard\">",
   "      <style:graphic-properties draw:stroke=\"none\" draw:fill=\"none\"/>",
   "    </style:style>",
   "    <style:style style:name=\"gr2\" style:family=\"graphic\" style:parent-style-name=\"standard\">",
   "      <style:graphic-properties draw:stroke=\"none\" draw:fill=\"none\"/>",
   "    </style:style>",
   "    <style:style style:name=\"gr3\" style:family=\"graphic\" style:parent-style-name=\"standard\">",
   "      <style:graphic-properties draw:stroke=\"none\" draw:fill=\"none\"/>",
   "    </style:style>",
   "    <style:style style:name=\"P1\" style:family=\"paragraph\" style:parent-style-name=\"standard\">",
   "      <style:paragraph-properties fo:text-align=\"center\" fo:margin-top=\"0.423cm\" fo:margin-bottom=\"0.212cm\"/>",
   "      <style:text-properties fo:font-size=\"24pt\" style:font-size-asian=\"24pt\" style:font-size-complex=\"24pt\" fo:font-weight=\"bold\"/>",
   "    </style:style>",
   "    <style:style style:name=\"P2\" style:family=\"paragraph\" style:parent-style-name=\"standard\">",
   "      <style:paragraph-properties fo:margin-top=\"0.212cm\" fo:margin-bottom=\"0.212cm\"/>",
   "      <style:text-properties fo:font-size=\"18pt\" style:font-size-asian=\"18pt\" style:font-size-complex=\"18pt\" fo:font-weight=\"bold\"/>",
   "    </style:style>",
   "    <style:style style:name=\"P3\" style:family=\"paragraph\" style:parent-style-name=\"standard\">",
   "      <style:paragraph-properties fo:margin-top=\"0.106cm\" fo:margin-bottom=\"0.106cm\"/>",
   "      <style:text-properties fo:font-size=\"12pt\" style:font-size-asian=\"12pt\" style:font-size-complex=\"12pt\"/>",
   "    </style:style>",
   "  </office:automatic-styles>",
   "  <office:master-styles>",
   "    <style:master-page style:name=\"Standard\" style:page-layout-name=\"AL1T0\">",
   "      <style:header/>",
   "      <style:footer/>",
   "    </style:master-page>",
   "  </office:master-styles>",
   "  <office:body>",
   "    <office:presentation>"]

/-- The fixed footer lines of `content.xml`. -/
def contentFooterLines : List String :=
  ["    </office:presentation>",
   "  </office:body>",
   "</office:document-content>"]

/-- Embeds `for i, slide in enumerate(self.slides): ...extend(create_slide_xml_lines(slide, i))`. -/
def slidesXmlLinesAux : List Slide → Nat → List String
  | [], _ => []
  | s :: rest, i => create_slide_xml_lines s i ++ slidesXmlLinesAux rest (i + 1)

/-- All lines of `content.xml` for a slide list. -/
def contentXmlLines (slides : List Slide) : List String :=
  contentHeaderLines ++ (slidesXmlLinesAux slides 0 ++ contentFooterLines)

/-- Embeds `FixedManualToODPConverter.create_content_xml` as the string written
to `content.xml`: the lines joined by newlines. -/
def create_content_xml (slides : List Slide) : String :=
  pyJoin "\n" (contentXmlLines slides)


/-- Scanner mode of the XML well-formedness check. -/
inductive ScanMode
  | text
  | afterLt
  | declBody
  | closeName (nameRev : List Char)
  | openBody (nameRev : List Char) (nameDone lastSlash : Bool)

/-- Character-level well-formedness scan, returning the scanner state
after consuming the given characters (or `none` on a malformed
fragment): `<` enters a tag; `<?...>` is a declaration; `</name>` must
match and pop the innermost open element; `<name ...>` pushes `name`
(the body characters up to the first whitespace or `/`); a tag whose
final body character is `/` is self-closing and pushes nothing; a `<`
inside a tag or an empty `<>` tag fails; text (including a bare `>`) is
skipped.  The attribute values of the generated documents contain no `<`
or `>`, so this scanner agrees with an XML tokenizer on them. -/
def scanStep : List Char → ScanMode → List (List Char) →
    Option (ScanMode × List (List Char))
  | [], mode, stack => some (mode, stack)
  | c :: rest, ScanMode.text, stack =>
    if c = '<' then scanStep rest ScanMode.afterLt stack
    else scanStep rest ScanMode.text stack
  | c :: rest, ScanMode.afterLt, stack =>
    if c = '?' then scanStep rest ScanMode.declBody stack
    else if c = '/' then scanStep rest (ScanMode.closeName []) stack
    else if c = '>' then none
    else if c = '<' then none
    else scanStep rest (ScanMode.openBody [c] false false) stack
  | c :: rest, ScanMode.declBody, stack =>
    if c = '>' then scanStep rest ScanMode.text stack
    else scanStep rest ScanMode.declBody stack
  | c :: rest, ScanMode.closeName nameRev, stack =>
    if c = '>' then
      match stack with
      | [] => none
      | top :: stk =>
        if nameRev.reverse = top then scanStep rest ScanMode.text stk
        else none
    else if c = '<' then none
    else scanStep rest (ScanMode.closeName (c :: nameRev)) stack
  | c :: rest, ScanMode.openBody nameRev nameDone lastSlash, stack =>
    if c = '>' then
      if lastSlash then scanStep rest ScanMode.text stack
      else scanStep rest ScanMode.text (nameRev.reverse :: stack)
    else if isPySpace c then scanStep rest (ScanMode.openBody nameRev true false) stack
    else if c = '/' then scanStep rest (ScanMode.openBody nameRev true true) stack
    else if c = '<' then none
    else if nameDone then scanStep rest (ScanMode.openBody nameRev true false) stack
    else scanStep rest (ScanMode.openBody (c :: nameRev) false false) stack

/-- Acceptance: the whole document was scanned outside any tag with all
opened elements closed. -/
def scanAccepts : Option (ScanMode × List (List Char)) → Bool
  | some (ScanMode.text, []) => true
  | _ => false

/-- Well-formedness notion used by the claims: the document scans with
every tag terminated and the open/close element structure balanced with
matching names. -/
def xmlWellFormed (s : String) : Bool :=
  scanAccepts (scanStep s.data ScanMode.text [])

/-- The scan of a newline-joined line list, one line at a time, each
line followed by its separating newline; forcing the intermediate state
after every line keeps kernel evaluation shallow. -/
def scanLines : List String → ScanMode → List (List Char) →
    Option (ScanMode × List (List Char))
  | [], mode, stack => some (mode, stack)
  | [x], mode, stack => scanStep x.data mode stack
  | x :: y :: xs, mode, stack =>
    match scanStep (x.data ++ ['\n']) mode stack with
    | none => none
    | some (mode2, stack2) => scanLines (y :: xs) mode2 stack2

/-- Compression method of a zip entry. -/
inductive CompressType
  | stored
  | deflated
deriving DecidableEq

/-- One member of the produced zip archive, in write order. -/
structure ZipEntry where
  name : String
  compress : CompressType
  content : String
deriving DecidableEq

/-- The literal written to the staged `mimetype` file (`f.write` adds no
trailing newline). -/
def mimetypeLiteral : String :=
  "application/vnd.oasis.opendocument.presentation"

/-- The literal `META-INF/manifest.xml` content written by
`create_manifest`. -/
def manifestContent : String :=
  "<?xml version=\"1.0\" encoding=\"UTF-8\"?>\n<manifest:manifest xmlns:manifest=\"urn:oasis:names:tc:opendocument:xmlns:manifest:1.0\">\n  <manifest:file-entry manifest:full-path=\"/\" manifest:media-type=\"application/vnd.oasis.opendocument.presentation\"/>\n  <manifest:file-entry manifest:full-path=\"content.xml\" manifest:media-type=\"text/xml\"/>\n  <manifest:file-entry manifest:full-path=\"styles.xml\" manifest:media-type=\"text/xml\"/>\n  <manifest:file-entry manifest:full-path=\"meta.xml\" manifest:media-type=\"text/xml\"/>\n</manifest:manifest>"

/-- The literal `styles.xml` content written by `create_styles_xml`. -/
def stylesContent : String :=
  "<?xml version=\"1.0\" encoding=\"UTF-8\"?>\n<office:document-styles xmlns:office=\"urn:oasis:names:tc:opendocument:xmlns:office:1.0\" \n                       xmlns:style=\"urn:oasis:names:tc:opendocument:xmlns:style:1.0\" \n                       xmlns:text=\"urn:oasis:names:tc:opendocument:xmlns:text:1.0\" \n                       xmlns:table=\"urn:oasis:names:tc:opendocument:xmlns:table:1.0\" \n                       xmlns:draw=\"urn:oasis:names:tc:opendocument:xmlns:drawing:1.0\" \n                       xmlns:fo=\"urn:oasis:names:tc:opendocument:xmlns:xsl-fo-compatible:1.0\" \n                       xmlns:xlink=\"http://www.w3.org/1999/xlink\" \n                       xmlns:dc=\"http://purl.org/dc/elements/1.1/\" \n                       xmlns:meta=\"urn:oasis:names:tc:opendocument:xmlns:meta:1.0\" \n                       xmlns:number=\"urn:oasis:names:tc:opendocument:xmlns:datastyle:1.0\" \n                       xmlns:svg=\"urn:oasis:names:tc:opendocument:xmlns:svg-compatible:1.0\" \n                       xmlns:chart=\"urn:oasis:names:tc:opendocument:xmlns:chart:1.0\" \n                       xmlns:dr3d=\"urn:oasis:names:tc:opendocument:xmlns:dr3d:1.0\" \n                       xmlns:math=\"http://www.w3.org/1998/Math/MathML\" \n                       xmlns:form=\"urn:oasis:names:tc:opendocument:xmlns:form:1.0\" \n                       xmlns:script=\"urn:oasis:names:tc:opendocument:xmlns:script:1.0\" \n                       xmlns:ooo=\"http://openoffice.org/2004/office\" \n                       xmlns:ooow=\"http://openoffice.org/2004/writer\" \n                       xmlns:oooc=\"http://openoffice.org/2004/calc\" \n                       xmlns:dom=\"http://www.w3.org/2001/xml-events\" \n                       xmlns:xforms=\"http://www.w3.org/2002/xforms\" \n                       xmlns:xsd=\"http://www.w3.org/2001/XMLSchema\" \n                       xmlns:xsi=\"http://www.w3.org/2001/XMLSchema-instance\" \n                       xmlns:rpt=\"http://openoffice.org/2005/report\" \n                       xmlns:of=\"urn:oasis:names:tc:opendocument:xmlns:of:1.2\" \n                       xmlns:xhtml=\"http://www.w3.org/1999/xhtml\" \n                       xmlns:grddl=\"http://www.w3.org/2003/g/data-view#\" \n                       xmlns:tableooo=\"http://openoffice.org/2009/table\" \n                       xmlns:field=\"urn:oasis:names:tc:opendocument:xmlns:field:1.0\" \n                       xmlns:formx=\"urn:oasis:names:tc:opendocument:xmlns:form:1.0\" \n                       xmlns:css3t=\"http://www.w3.org/TR/css3-text/\" \n                       office:version=\"1.2\">\n  <office:font-face-decls/>\n  <office:automatic-styles/>\n  <office:master-styles/>\n</office:document-styles>"

/-- The `meta.xml` content written by `create_meta_xml`;
`datetime.now().isoformat()` is abstracted as the `date` parameter. -/
def metaContent (date : String) : String :=
  "<?xml version=\"1.0\" encoding=\"UTF-8\"?>\n<office:document-meta xmlns:office=\"urn:oasis:names:tc:opendocument:xmlns:office:1.0\" \n                      xmlns:meta=\"urn:oasis:names:tc:opendocument:xmlns:meta:1.0\" \n                      xmlns:dc=\"http://purl.org/dc/elements/1.1/\" \n                      xmlns:xlink=\"http://www.w3.org/1999/xlink\" \n                      office:version=\"1.2\">\n  <office:meta>\n    <dc:title>Manual de Usuario - Dashboard Mi Integración API</dc:title>\n    <dc:description>Manual completo del Dashboard del plugin Mi Integración API</dc:description>\n    <dc:creator>Sistema de Conversión Automática</dc:creator>\n    <dc:date>" ++ (date ++ "</dc:date>\n  </office:meta>\n</office:document-meta>")

/-- Embeds `create_fixed_odp`: the staging directory contents after the five
writes, as (relative path, file content) pairs; the removal of any
pre-existing staging directory and the directory creation itself are
represented by the staging flag of `convert`. -/
def create_fixed_odp (slides : List Slide) (date : String) : List (String × String) :=
  [("mimetype", mimetypeLiteral),
   ("META-INF/manifest.xml", manifestContent),
   ("content.xml", create_content_xml slides),
   ("styles.xml", stylesContent),
   ("meta.xml", metaContent date)]

/-- Embeds `create_odp_file`: the archive is opened as
`zipfile.ZipFile(self.output_file, 'w', zipfile.ZIP_DEFLATED)`, fixing
the archive-wide default compression to deflate, and `ZipFile.write`
without an explicit `compress_type` argument inherits that default, so
every entry — the `mimetype` entry included, despite the adjacent
`# Agregar mimetype sin comprimir` comment — is written deflated.  The
staged `mimetype` file is written first; the `os.walk` over the staging
directory then writes the remaining files, skipping the one named
`mimetype` (walk order abstracted as list order). -/
def create_odp_file (staged : List (String × String)) : List ZipEntry :=
  ⟨"mimetype", CompressType.deflated, (staged.lookup "mimetype").getD ""⟩
    :: (staged.filter (fun f => !(f.1 = "mimetype"))).map
        (fun f => ⟨f.1, CompressType.deflated, f.2⟩)

/-- Filesystem state visible to `convert`: whether the temporary staging
directory currently exists. -/
structure FsState where
  tempDirExists : Bool
deriving DecidableEq

/-- Embeds `FixedManualToODPConverter.cleanup`: remove the staging directory if
it exists. -/
def cleanup (fs : FsState) : FsState :=
  if fs.tempDirExists then ⟨false⟩ else fs

/-- Embeds `FixedManualToODPConverter.convert`, with the markdown content and
metadata date as parameters and the fallible archive write abstracted by
a success flag: read, parse, create the staging directory and its five
files, write the archive, clean up.  The statements run in straight-line
order with no `try/finally`: when `create_odp_file` raises (modelled by
`writeOk = false`, e.g. an `OSError` for permissions, a full disk or an
invalid destination path), the exception propagates to the caller and
the `self.cleanup(temp_dir)` call on the following line never runs, so
the staging directory survives the failed run. -/
def convert (content date : String) (writeOk : Bool) :
    FsState × Except String (List ZipEntry) :=
  let slides := parse_content content
  let staged := create_fixed_odp slides date
  let fsAfterStaging : FsState := ⟨true⟩
  if writeOk then
    (cleanup fsAfterStaging, Except.ok (create_odp_file staged))
  else
    (fsAfterStaging, Except.error "OSError: could not write output archive")

/-- A demonstration slide with nine qualifying content blocks (used to
instantiate the block-cap theorem). -/
def capDemoSlide : Slide :=
  ⟨"T", List.replicate 9 ⟨BlockType.text, "a"⟩⟩

end Odp

namespace Odp

theorem listIsPrefixOf_append_true (p : List Char) :
    ∀ x t : List Char, p.isPrefixOf x = true → p.isPrefixOf (x ++ t) = true := by
  induction p with
  | nil => intro x t _; simp [List.isPrefixOf]
  | cons a as ih =>
    intro x t h
    cases x with
    | nil => simp [List.isPrefixOf] at h
    | cons b bs =>
      simp only [List.isPrefixOf, Bool.and_eq_true] at h
      simp only [List.cons_append, List.isPrefixOf, Bool.and_eq_true]
      exact ⟨h.1, ih bs t h.2⟩

theorem listIsPrefixOf_append_false (p : List Char) :
    ∀ x t : List Char, (p.take x.length).isPrefixOf x = false →
      p.isPrefixOf (x ++ t) = false := by
  induction p with
  | nil => intro x t h; simp [List.isPrefixOf_nil_left] at h
  | cons a as ih =>
    intro x t h
    cases x with
    | nil => simp [List.isPrefixOf] at h
    | cons b bs =>
      simp only [List.length_cons, List.take_succ_cons, List.isPrefixOf,
        Bool.and_eq_false_iff] at h
      simp only [List.cons_append, List.isPrefixOf, Bool.and_eq_false_iff]
      cases h with
      | inl hab => exact Or.inl hab
      | inr hrest => exact Or.inr (ih bs t hrest)

theorem isContentFrameOpen_concat_false (x t : String)
    (h2 : (framePre2.data.take x.data.length).isPrefixOf x.data = false)
    (h3 : (framePre3.data.take x.data.length).isPrefixOf x.data = false) :
    isContentFrameOpen (x ++ t) = false := by
  unfold isContentFrameOpen
  rw [String.data_append, listIsPrefixOf_append_false _ _ _ h2,
    listIsPrefixOf_append_false _ _ _ h3]
  rfl

theorem isContentFrameOpen_subtitle_open (t : String) :
    isContentFrameOpen (subtitleOpenA ++ t) = true := by
  unfold isContentFrameOpen
  rw [String.data_append, listIsPrefixOf_append_true _ _ _ (by decide)]
  rfl

theorem isContentFrameOpen_bullet_open (t : String) :
    isContentFrameOpen (bulletOpenA ++ t) = true := by
  unfold isContentFrameOpen
  rw [String.data_append, listIsPrefixOf_append_false _ _ _ (by decide),
    listIsPrefixOf_append_true _ _ _ (by decide)]
  rfl

theorem isContentFrameOpen_text_open (t : String) :
    isContentFrameOpen (textOpenA ++ t) = true := by
  unfold isContentFrameOpen
  rw [String.data_append, listIsPrefixOf_append_false _ _ _ (by decide),
    listIsPrefixOf_append_true _ _ _ (by decide)]
  rfl

theorem countP_subtitleFrame (e y : String) :
    (subtitleFrameLines e y).countP isContentFrameOpen = 1 := by
  have h1 := isContentFrameOpen_subtitle_open (y ++ "cm\">")
  have h2 : isContentFrameOpen "          <draw:text-box>" = false := by decide
  have h3 : isContentFrameOpen (paraP2A ++ (e ++ "</text:p>")) = false :=
    isContentFrameOpen_concat_false _ _ (by decide) (by decide)
  have h4 : isContentFrameOpen "          </draw:text-box>" = false := by decide
  have h5 : isContentFrameOpen "        </draw:frame>" = false := by decide
  simp [subtitleFrameLines, List.countP_cons, h1, h2, h3, h4, h5]

theorem countP_bulletFrame (e y : String) :
    (bulletFrameLines e y).countP isContentFrameOpen = 1 := by
  have h1 := isContentFrameOpen_bullet_open (y ++ "cm\">")
  have h2 : isContentFrameOpen "          <draw:text-box>" = false := by decide
  have h3 : isContentFrameOpen (paraP3A ++ ("• " ++ (e ++ "</text:p>"))) = false :=
    isContentFrameOpen_concat_false _ _ (by decide) (by decide)
  have h4 : isContentFrameOpen "          </draw:text-box>" = false := by decide
  have h5 : isContentFrameOpen "        </draw:frame>" = false := by decide
  simp [bulletFrameLines, List.countP_cons, h1, h2, h3, h4, h5]

theorem countP_textFrame (e y : String) :
    (textFrameLines e y).countP isContentFrameOpen = 1 := by
  have h1 := isContentFrameOpen_text_open (y ++ "cm\">")
  have h2 : isContentFrameOpen "          <draw:text-box>" = false := by decide
  have h3 : isContentFrameOpen (paraP3A ++ (e ++ "</text:p>")) = false :=
    isContentFrameOpen_concat_false _ _ (by decide) (by decide)
  have h4 : isContentFrameOpen "          </draw:text-box>" = false := by decide
  have h5 : isContentFrameOpen "        </draw:frame>" = false := by decide
  simp [textFrameLines, List.countP_cons, h1, h2, h3, h4, h5]

theorem countP_titleFrame (e : String) :
    (titleFrameLines e).countP isContentFrameOpen = 0 := by
  have h1 : isContentFrameOpen "        <draw:frame draw:style-name=\"gr1\" draw:text-style-name=\"P1\" draw:layer=\"layout\" svg:width=\"25.199cm\" svg:height=\"3.506cm\" svg:x=\"1.4cm\" svg:y=\"0.3cm\">" = false := by decide
  have h2 : isContentFrameOpen "          <draw:text-box>" = false := by decide
  have h3 : isContentFrameOpen (paraP1A ++ (e ++ "</text:p>")) = false :=
    isContentFrameOpen_concat_false _ _ (by decide) (by decide)
  have h4 : isContentFrameOpen "          </draw:text-box>" = false := by decide
  have h5 : isContentFrameOpen "        </draw:frame>" = false := by decide
  simp [titleFrameLines, List.countP_cons, h1, h2, h3, h4, h5]

theorem isContentFrameOpen_pageOpen (n : Nat) :
    isContentFrameOpen (pageOpenLine n) = false := by
  unfold pageOpenLine
  exact isContentFrameOpen_concat_false _ _ (by decide) (by decide)

theorem countP_renderLoop (l : List Block)
    (hb : ∀ b ∈ l, isBoldType b.type = false) :
    ∀ y : Nat, (renderLoop l y).countP isContentFrameOpen = l.length := by
  induction l with
  | nil => intro y; rfl
  | cons b rest ih =>
    intro y
    have hbb : isBoldType b.type = false := hb b (by simp)
    have hrest : ∀ x ∈ rest, isBoldType x.type = false := fun x hx => hb x (by simp [hx])
    cases htype : b.type
    case subtitle =>
      simp [renderLoop, htype, List.countP_append, countP_subtitleFrame, ih hrest]
      omega
    case bullet =>
      simp [renderLoop, htype, List.countP_append, countP_bulletFrame, ih hrest]
      omega
    case text =>
      simp [renderLoop, htype, List.countP_append, countP_textFrame, ih hrest]
      omega
    case bold =>
      rw [htype] at hbb
      simp [isBoldType] at hbb

theorem slideContentLoop_stop (l : List Block) (y count : Nat) (h : 8 ≤ count) :
    slideContentLoop l y count = [] := by
  cases l with
  | nil => rfl
  | cons b rest => simp [slideContentLoop, h]

theorem slideContentLoop_eq_renderLoop (blocks : List Block) :
    ∀ y count : Nat,
      slideContentLoop blocks y count
        = renderLoop ((blocks.filter qualifying).take (8 - count)) y := by
  induction blocks with
  | nil => intro y count; simp [slideContentLoop, renderLoop]
  | cons b rest ih =>
    intro y count
    by_cases h8 : 8 ≤ count
    · rw [slideContentLoop_stop _ _ _ h8, Nat.sub_eq_zero_of_le h8]
      rfl
    · by_cases ht : b.text = ""
      · have hq : qualifying b = false := by simp [qualifying, ht]
        simp [slideContentLoop, h8, ht, List.filter_cons, hq, ih]
      · have hcnt : 8 - count = (8 - (count + 1)) + 1 := by omega
        cases htype : b.type with
        | bold =>
          have hq : qualifying b = false := by simp [qualifying, isBoldType, htype]
          simp [slideContentLoop, h8, ht, htype, List.filter_cons, hq, ih]
        | subtitle =>
          have hq : qualifying b = true := by simp [qualifying, ht, isBoldType, htype]
          rw [hcnt]
          simp [slideContentLoop, h8, ht, htype, List.filter_cons, hq, renderLoop, ih]
        | bullet =>
          have hq : qualifying b = true := by simp [qualifying, ht, isBoldType, htype]
          rw [hcnt]
          simp [slideContentLoop, h8, ht, htype, List.filter_cons, hq, renderLoop, ih]
        | text =>
          have hq : qualifying b = true := by simp [qualifying, ht, isBoldType, htype]
          rw [hcnt]
          simp [slideContentLoop, h8, ht, htype, List.filter_cons, hq, renderLoop, ih]


theorem scanStep_append (A : List Char) :
    ∀ (B : List Char) (m : ScanMode) (s : List (List Char)),
      scanStep (A ++ B) m s
        = match scanStep A m s with
          | none => none
          | some st => scanStep B st.1 st.2 := by
  induction A with
  | nil => intro B m s; rfl
  | cons c A ih =>
    intro B m s
    cases m with
    | text => by_cases h : c = '<' <;> simp [scanStep, h, ih]
    | afterLt =>
      by_cases h1 : c = '?'
      · simp [scanStep, h1, ih]
      · by_cases h2 : c = '/'
        · simp [scanStep, h1, h2, ih]
        · by_cases h3 : c = '>'
          · simp [scanStep, h1, h2, h3]
          · by_cases h4 : c = '<' <;> simp [scanStep, h1, h2, h3, h4, ih]
    | declBody => by_cases h : c = '>' <;> simp [scanStep, h, ih]
    | closeName nameRev =>
      by_cases h1 : c = '>'
      · cases s with
        | nil => simp [scanStep, h1]
        | cons top stk =>
          by_cases h2 : nameRev.reverse = top <;> simp [scanStep, h1, h2, ih]
      · by_cases h2 : c = '<' <;> simp [scanStep, h1, h2, ih]
    | openBody nameRev nameDone lastSlash =>
      by_cases h1 : c = '>'
      · cases lastSlash <;> simp [scanStep, h1, ih]
      · by_cases h2 : isPySpace c
        · simp [scanStep, h1, h2, ih]
        · by_cases h3 : c = '/'
          · have hsp : isPySpace '/' = false := by decide
            simp [scanStep, h1, h2, h3, hsp, ih]
          · by_cases h4 : c = '<'
            · have hsp : isPySpace '<' = false := by decide
              simp [scanStep, h1, h2, h3, h4, hsp, ih]
            · cases nameDone <;> simp [scanStep, h1, h2, h3, h4, ih]

theorem scanStep_join (lines : List String) :
    ∀ (m : ScanMode) (s : List (List Char)),
      scanStep (pyJoin "\n" lines).data m s = scanLines lines m s := by
  induction lines with
  | nil => intro m s; rfl
  | cons x rest ih =>
    intro m s
    cases rest with
    | nil => rfl
    | cons y xs =>
      have hnl : ("\n" : String).data = ['\n'] := rfl
      have hdata : (pyJoin "\n" (x :: y :: xs)).data
          = (x.data ++ ['\n']) ++ (pyJoin "\n" (y :: xs)).data := by
        show (x ++ "\n" ++ pyJoin "\n" (y :: xs)).data = _
        simp [String.data_append, hnl]
      rw [hdata, scanStep_append]
      cases hstep : scanStep (x.data ++ ['\n']) m s with
      | none => simp [scanLines, hstep]
      | some st =>
        cases st with
        | mk m2 s2 => simp [scanLines, hstep, ih]

theorem foldl_parseStep_no_marker (lines : List String)
    (h : ∀ l ∈ lines, isSlideMarker (pyStrip l) = false) :
    lines.foldl parseStep initState = initState := by
  induction lines with
  | nil => rfl
  | cons l ls ih =>
    have h1 : isSlideMarker (pyStrip l) = false := h l (by simp)
    have hstep : parseStep initState l = initState := by
      simp [parseStep, h1, initState]
    rw [List.foldl_cons, hstep, ih (fun x hx => h x (by simp [hx]))]

/-- Claim C9: a document none of whose stripped lines is a level-2
section marker parses to an empty slide sequence (all its lines are
discarded), and the generated `content.xml` for that empty sequence
contains zero `draw:page` elements while remaining well-formed XML
(every tag terminated, open/close structure balanced with matching
names). -/
theorem no_marker_empty_presentation (content : String)
    (h : ∀ l ∈ pySplitLines content, isSlideMarker (pyStrip l) = false) :
    parse_content content = []
    ∧ (contentXmlLines (parse_content content)).countP isPageOpen = 0
    ∧ xmlWellFormed (create_content_xml (parse_content content)) = true := by
  have hp : parse_content content = [] := by
    unfold parse_content
    rw [foldl_parseStep_no_marker _ h]
    rfl
  refine ⟨hp, ?_, ?_⟩
  · rw [hp]
    decide
  · rw [hp]
    unfold xmlWellFormed create_content_xml
    rw [scanStep_join]
    decide

/-- Witness for the empty-document theorem on a concrete two-line
document with no section markers. -/
theorem no_marker_empty_presentation_witness :
    parse_content "hello\nworld" = []
    ∧ (contentXmlLines (parse_content "hello\nworld")).countP isPageOpen = 0
    ∧ xmlWellFormed (create_content_xml (parse_content "hello\nworld")) = true :=
  no_marker_empty_presentation "hello\nworld" (by decide)

/-- Claim C4: for every conversion run the first entry of the produced
archive is named `mimetype` and its bytes are exactly the literal
media-type string with no trailing newline — but it is not stored
without compression: the archive-wide `ZIP_DEFLATED` default passed to
`zipfile.ZipFile` applies to every `ZipFile.write` call, the `mimetype`
write included, contradicting the spec and the code's own
`# Agregar mimetype sin comprimir` comment. -/
theorem mimetype_first_entry_deflated (slides : List Slide) (date : String) :
    (create_odp_file (create_fixed_odp slides date)).head?
      = some ⟨"mimetype", CompressType.deflated,
          "application/vnd.oasis.opendocument.presentation"⟩
    ∧ CompressType.deflated ≠ CompressType.stored := by
  exact ⟨rfl, by decide⟩

/-- Claim C5 (counterexample): the claim says that when archive writing
fails the staging directory is still removed; on the failing run below
`convert` leaves the staging directory in place
(`tempDirExists = true`), because the exception raised inside
`create_odp_file` propagates past the `self.cleanup(temp_dir)` call that
only a completed `create_odp_file` line would reach. -/
theorem cleanup_skipped_on_write_failure :
    (convert "## T" "2026-01-01" false).1.tempDirExists = true
    ∧ (convert "## T" "2026-01-01" false).2
        = Except.error "OSError: could not write output archive" := by
  exact ⟨rfl, rfl⟩

/-- Claim C5 (amended): when archive writing fails the failure is
surfaced to the caller with its underlying cause, but the staging
directory is not removed — `convert` has no `try/finally`, so cleanup
runs only on the success path, where the staging directory is removed
after the archive is written. -/
theorem convert_failure_behavior (content date : String) :
    (convert content date false).2
        = Except.error "OSError: could not write output archive"
    ∧ (convert content date false).1.tempDirExists = true
    ∧ (convert content date true).1.tempDirExists = false := by
  exact ⟨rfl, rfl, rfl⟩

/-- Claim C1: the spec requires `escape_xml` to be idempotent on strings
over the five reserved characters plus ASCII letters and digits, and
requires escaping an already-escaped string to be a no-op.  The code
violates this: `html.escape` already escapes `&`, `<`, `>`, and the
subsequent manual `replace('&', '&amp;')` re-escapes the ampersands just
introduced, so `escape_xml "&" = "&amp;amp;"`, a second application
yields `"&amp;amp;amp;amp;"`, and the already-escaped `"&amp;"` becomes
`"&amp;amp;amp;"` rather than staying fixed. -/
theorem escape_xml_not_idempotent :
    escape_xml "&" = "&amp;amp;"
    ∧ escape_xml (escape_xml "&") = "&amp;amp;amp;amp;"
    ∧ escape_xml (escape_xml "&") ≠ escape_xml "&"
    ∧ escape_xml "&amp;" = "&amp;amp;amp;" := by
  refine ⟨by decide, by decide, by decide, by decide⟩

/-- Claim C2: the spec requires that escaping a string containing each of
the five reserved characters and then parsing the result as XML text
content yields the original visible text.  The code violates this:
`escape_xml "&<>\"'"` produces `"&amp;amp;&amp;lt;&amp;gt;&quot;&apos;"`,
whose parsed visible text is `"&amp;&lt;&gt;\"'"`, not the original
string — the `&`, `<`, `>` occurrences are double-escaped (only the two
quote characters survive the round trip). -/
theorem escape_xml_roundtrip_fails :
    escape_xml "&<>\"'" = "&amp;amp;&amp;lt;&amp;gt;&quot;&apos;"
    ∧ xmlUnescape (escape_xml "&<>\"'") = "&amp;&lt;&gt;\"'"
    ∧ xmlUnescape (escape_xml "&<>\"'") ≠ "&<>\"'" := by
  refine ⟨by decide, by decide, by decide⟩


/-- Claim C3 (counterexample): the claim says a `bold` block with
nonempty text is emitted as its own content shape; in the code the
emitter's `if/elif` chain has no `'bold'` branch, so a slide whose only
content block is `bold "x"` produces exactly the same lines as a slide
with no content at all, and its page contains zero content shapes. -/
theorem bold_block_not_emitted :
    create_slide_xml_lines ⟨"T", [⟨BlockType.bold, "x"⟩]⟩ 0
      = create_slide_xml_lines ⟨"T", []⟩ 0
    ∧ (create_slide_xml_lines ⟨"T", [⟨BlockType.bold, "x"⟩]⟩ 0).countP isContentFrameOpen = 0 := by
  refine ⟨rfl, by decide⟩

/-- Claim C3 (amended): `bold` blocks are never emitted — the content
loop skips them without consuming vertical space or cap count — while
the three emitted families use distinct vertical increments (subtitle
0.8 cm, bullet 0.5 cm, plain text 0.4 cm) and fixed heights
(0.6 / 0.5 / 0.4 cm), with bullets indented further right
(`svg:x="2.0cm"`) than subtitles and plain text (`svg:x="1.4cm"`), as
the concrete slide below exhibits (y positions 4.8, 5.3, 5.7; the
trailing `bold "d"` block contributes nothing). -/
theorem layout_increments :
    (∀ (t : String) (rest : List Block) (y count : Nat),
      slideContentLoop (⟨BlockType.bold, t⟩ :: rest) y count
        = slideContentLoop rest y count)
    ∧ create_slide_xml_lines
        ⟨"T", [⟨BlockType.subtitle, "a"⟩, ⟨BlockType.bullet, "b"⟩,
               ⟨BlockType.text, "c"⟩, ⟨BlockType.bold, "d"⟩]⟩ 0 =
      ["      <draw:page draw:name=\"Slide1\" draw:style-name=\"dp1\" draw:master-page-name=\"Standard\">",
       "        <draw:frame draw:style-name=\"gr1\" draw:text-style-name=\"P1\" draw:layer=\"layout\" svg:width=\"25.199cm\" svg:height=\"3.506cm\" svg:x=\"1.4cm\" svg:y=\"0.3cm\">",
       "          <draw:text-box>",
       "            <text:p text:style-name=\"P1\">T</text:p>",
       "          </draw:text-box>",
       "        </draw:frame>",
       "        <draw:frame draw:style-name=\"gr2\" draw:text-style-name=\"P2\" draw:layer=\"layout\" svg:width=\"25.199cm\" svg:height=\"0.6cm\" svg:x=\"1.4cm\" svg:y=\"4.8cm\">",
       "          <draw:text-box>",
       "            <text:p text:style-name=\"P2\">a</text:p>",
       "          </draw:text-box>",
       "        </draw:frame>",
       "        <draw:frame draw:style-name=\"gr3\" draw:text-style-name=\"P3\" draw:layer=\"layout\" svg:width=\"25.199cm\" svg:height=\"0.5cm\" svg:x=\"2.0cm\" svg:y=\"5.3cm\">",
       "          <draw:text-box>",
       "            <text:p text:style-name=\"P3\">• b</text:p>",
       "          </draw:text-box>",
       "        </draw:frame>",
       "        <draw:frame draw:style-name=\"gr3\" draw:text-style-name=\"P3\" draw:layer=\"layout\" svg:width=\"25.199cm\" svg:height=\"0.4cm\" svg:x=\"1.4cm\" svg:y=\"5.7cm\">",
       "          <draw:text-box>",
       "            <text:p text:style-name=\"P3\">c</text:p>",
       "          </draw:text-box>",
       "        </draw:frame>",
       "      </draw:page>"] := by
  refine ⟨?_, by decide⟩
  intro t rest y count
  by_cases h8 : 8 ≤ count
  · rw [slideContentLoop_stop _ _ _ h8, slideContentLoop_stop _ _ _ h8]
  · by_cases ht : t = "" <;> simp [slideContentLoop, h8, ht]

/-- Claim C6: for every slide with more than 8 qualifying content blocks
(nonempty text, type in the emitted subtitle/bullet/plain-text families)
the emitted page consists of the page opening, the single title shape,
the renderings of exactly the first 8 qualifying blocks in source order,
and the page closing; exactly 8 content shapes appear, and blocks with
empty text (or `bold` type) are skipped without counting toward the cap
because the cap counts only emitted blocks. -/
theorem content_cap_eight (slide : Slide) (n : Nat)
    (h : 8 < (slide.content.filter qualifying).length) :
    create_slide_xml_lines slide n
      = pageOpenLine n
          :: (titleFrameLines (escape_xml slide.title)
            ++ (renderLoop ((slide.content.filter qualifying).take 8) 40
              ++ ["      </draw:page>"]))
    ∧ ((slide.content.filter qualifying).take 8).length = 8
    ∧ (create_slide_xml_lines slide n).countP isContentFrameOpen = 8 := by
  have hmain : create_slide_xml_lines slide n
      = pageOpenLine n
          :: (titleFrameLines (escape_xml slide.title)
            ++ (renderLoop ((slide.content.filter qualifying).take 8) 40
              ++ ["      </draw:page>"])) := by
    unfold create_slide_xml_lines
    rw [slideContentLoop_eq_renderLoop]
  have hlen : ((slide.content.filter qualifying).take 8).length = 8 := by
    rw [List.length_take]
    omega
  refine ⟨hmain, hlen, ?_⟩
  rw [hmain]
  have hb : ∀ b ∈ (slide.content.filter qualifying).take 8, isBoldType b.type = false := by
    intro b hbmem
    have hq : qualifying b = true :=
      List.of_mem_filter (List.mem_of_mem_take hbmem)
    simp only [qualifying, Bool.and_eq_true, Bool.not_eq_true'] at hq
    exact hq.2
  have hclose : isContentFrameOpen "      </draw:page>" = false := by decide
  simp [List.countP_cons, List.countP_append, isContentFrameOpen_pageOpen,
    hclose, countP_titleFrame, countP_renderLoop _ hb, hlen]

/-- Witness for the block-cap theorem at a concrete slide with nine
qualifying plain-text blocks. -/
theorem content_cap_eight_witness :
    create_slide_xml_lines capDemoSlide 0
      = pageOpenLine 0
          :: (titleFrameLines (escape_xml capDemoSlide.title)
            ++ (renderLoop ((capDemoSlide.content.filter qualifying).take 8) 40
              ++ ["      </draw:page>"]))
    ∧ ((capDemoSlide.content.filter qualifying).take 8).length = 8
    ∧ (create_slide_xml_lines capDemoSlide 0).countP isContentFrameOpen = 8 :=
  content_cap_eight capDemoSlide 0 (by decide)

/-- Claim C7: a table header-separator row in the dashes-under-pipes
convention (a row beginning `|---`, e.g. `|---|---|`) never produces a
content block, while the data row `| A | B |` produces exactly one
plain-text block with text `A | B`; through `parse_content` the two rows
together contribute exactly that single block to the slide. -/
theorem table_rows_parse :
    classifyContentLine "|---|---|" = none
    ∧ classifyContentLine "| A | B |" = some ⟨BlockType.text, "A | B"⟩
    ∧ parse_content "## T\n|---|---|\n| A | B |"
        = [⟨"T", [⟨BlockType.text, "A | B"⟩]⟩] := by
  refine ⟨by decide, by decide, by decide⟩

/-- Claim C8: for the title line `## Setup 🚀 Guide!` the parsed slide's
sanitized title is `Setup  Guide` — the emoji and the `!` (the only
characters outside `{word characters, whitespace, hyphen}`) are removed
and nothing else is altered, so the two spaces around the emoji remain;
a hyphenated title keeps its hyphen. -/
theorem title_sanitization :
    parse_content "## Setup 🚀 Guide!" = [⟨"Setup  Guide", []⟩]
    ∧ cleanTitle "Setup 🚀 Guide!" = "Setup  Guide"
    ∧ cleanTitle "a-b" = "a-b" := by
  refine ⟨by decide, by decide, by decide⟩

/-- Claim C10: within a slide every nonempty line is classified by the
predicates evaluated in the fixed order subtitle-marker, bullet-marker,
bold-markers, pipe-table row, horizontal-rule exclusion, plain text; the
classification equals first-match evaluation of that ordered rule list,
so the earliest matching predicate always wins — in particular
`**|a|b|**` is classified bold with text `|a|b|` (never a table row) and
`- **x**` is classified bullet with text `**x**` (never bold). -/
theorem classification_priority :
    (∀ line : String, classifyContentLine line = applyRules priorityRules line)
    ∧ classifyContentLine "**|a|b|**" = some ⟨BlockType.bold, "|a|b|"⟩
    ∧ classifyContentLine "- **x**" = some ⟨BlockType.bullet, "**x**"⟩
    ∧ parse_content "## T\n**|a|b|**\n- **x**"
        = [⟨"T", [⟨BlockType.bold, "|a|b|"⟩, ⟨BlockType.bullet, "**x**"⟩]⟩] := by
  refine ⟨fun line => rfl, by decide, by decide, by decide⟩

end Odp
